import Mathlib

/-!
Shallow embedding of the watermark-removal batch pipeline
(`src/app/api/process-images/route.ts`, `src/lib/watermark-api.ts`,
`src/app/api/status/route.ts`, and the gallery-extraction route).

Conventions of the embedding:
* A JavaScript promise that may reject is modelled as `Except String α`
  (`Except.error msg` = rejected with an `Error` whose `.message` is `msg`).
* Network effects (fetch results, blob uploads, JSON parse outcomes,
  `Date.now()`) are inputs to the embedded functions: each function is a pure
  function of the request data plus an explicit "world" describing what the
  external services answer.
* JavaScript truthiness on optional strings (`undefined` and `""` are falsy)
  is modelled by `truthyStr` / `orElseStr` / `firstTruthy`.
* Setting of timers (`setTimeout`) is modelled by returning the list of delays
  that were awaited, in order.
-/

/-- Status of one processing result (`"success" | "error" | "processing"`). -/
inductive PStatus
  | success
  | error
  | processing
deriving Repr, DecidableEq

/-- Result record produced per image, mirroring `ProcessingResult` in
`route.ts` (fields `originalUrl, processedUrl, filename, status, message?,
jobId?`). -/
structure ProcessingResult where
  originalUrl : String
  processedUrl : String
  filename : String
  status : PStatus
  message : Option String
  jobId : Option String
deriving Repr, DecidableEq

/-- Result of one provider call, mirroring `WatermarkRemovalResult` in
`watermark-api.ts` (`success, processedImageUrl?, error?, jobId?`). -/
structure WRResult where
  success : Bool
  processedImageUrl : Option String
  error : Option String
  jobId : Option String
deriving Repr, DecidableEq

/-- JavaScript truthiness of an optional string: `undefined` and `""` are
falsy, every other string truthy. -/
def truthyStr : Option String → Bool
  | none => false
  | some s => s ≠ ""

/-- JavaScript `a || d` for an optional string `a` and default `d`. -/
def orElseStr (o : Option String) (d : String) : String :=
  match o with
  | none => d
  | some s => if s = "" then d else s

/-- JavaScript `a || b` over two optional strings, as used for
`process.env.FAL_KEY || process.env.FAL_API_KEY`: the result is the first
truthy value, or `none` when both are falsy. -/
def firstTruthy (a b : Option String) : Option String :=
  match a with
  | some s => if s = "" then (match b with
      | some t => if t = "" then none else some t
      | none => none) else some s
  | none => match b with
      | some t => if t = "" then none else some t
      | none => none

/-- Containment of one character list in another as a contiguous run. -/
def listContains (needle : List Char) : List Char → Bool
  | [] => needle.isEmpty
  | c :: cs => needle.isPrefixOf (c :: cs) || listContains needle cs

/-- JavaScript `hay.includes(needle)` (substring containment). -/
def substr (needle hay : String) : Bool :=
  listContains needle.toList hay.toList

/-- JavaScript `s.startsWith(pre)`. -/
def strStartsWith (pre s : String) : Bool :=
  pre.toList.isPrefixOf s.toList

/-- Retry configuration `RETRY_CONFIG.maxRetries` from `route.ts`. -/
def maxRetries : Nat := 3

/-- Retry configuration `RETRY_CONFIG.retryDelay` (milliseconds). -/
def retryDelay : Nat := 2000

/-- Retry configuration `RETRY_CONFIG.backoffMultiplier`. -/
def backoffMultiplier : Nat := 2

/-- Embedding of `retryWithBackoff` from `route.ts`.  The wrapped operation is
given as `f : Nat → Except String α`, where `f k` is the outcome of the
`k`-th invocation of `fn` (a rejected promise is `Except.error`).  Returns the
final outcome together with the number of invocations made and the list of
delays (in ms) awaited between consecutive invocations, in order. -/
def retryWithBackoff (f : Nat → Except String α) :
    Nat → Nat → Except String α × Nat × List Nat
  | retries, delay =>
    match f 0 with
    | Except.ok a => (Except.ok a, 1, [])
    | Except.error e =>
      match retries with
      | 0 => (Except.error e, 1, [])
      | r + 1 =>
        let rest := retryWithBackoff (fun i => f (i + 1)) r (delay * backoffMultiplier)
        (rest.1, rest.2.1 + 1, delay :: rest.2.2)

/-- Embedding of `processImageWithRetry` from `route.ts`: wrap the provider
call in `retryWithBackoff`; a resolved result with truthy `success` and
truthy `processedImageUrl` becomes a `success` record, a resolved failure
becomes an `error` record with `processedUrl` falling back to the original
URL, and a rejection (after retries are exhausted) is caught and also becomes
an `error` record with the rejection message.  Also returns attempt count and
awaited delays. -/
def processImageWithRetry (call : Nat → Except String WRResult)
    (imageUrl filename : String) : ProcessingResult × Nat × List Nat :=
  let out := retryWithBackoff call maxRetries retryDelay
  (match out.1 with
   | Except.ok r =>
     if r.success && truthyStr r.processedImageUrl then
       { originalUrl := imageUrl
         processedUrl := r.processedImageUrl.getD imageUrl
         filename := filename
         status := PStatus.success
         message := none
         jobId := r.jobId }
     else
       { originalUrl := imageUrl
         processedUrl := imageUrl
         filename := filename
         status := PStatus.error
         message := some (orElseStr r.error "Processing failed")
         jobId := none }
   | Except.error e =>
     { originalUrl := imageUrl
       processedUrl := imageUrl
       filename := filename
       status := PStatus.error
       message := some e
       jobId := none }, out.2)

/-- C1: a provider call that always fails (every invocation rejects) makes
the retry wrapper perform exactly `maxRetries + 1 = 4` invocations, waiting
`retryDelay, retryDelay*backoffMultiplier, retryDelay*backoffMultiplier^2`
(= 2000 ms, 4000 ms, 8000 ms) between consecutive invocations, and the last
rejection is propagated unchanged; `processImageWithRetry` then yields an
error-status `ProcessingResult` carrying that same message. -/
theorem alwaysFailing_retry_behavior (call : Nat → Except String WRResult)
    (e : Nat → String) (url fn : String)
    (h : ∀ k, call k = Except.error (e k)) :
    retryWithBackoff call maxRetries retryDelay =
      (Except.error (e maxRetries), maxRetries + 1,
        [retryDelay, retryDelay * backoffMultiplier,
          retryDelay * backoffMultiplier ^ 2]) ∧
    maxRetries + 1 = 4 ∧
    [retryDelay, retryDelay * backoffMultiplier,
      retryDelay * backoffMultiplier ^ 2] = [2000, 4000, 8000] ∧
    processImageWithRetry call url fn =
      ({ originalUrl := url, processedUrl := url, filename := fn,
         status := PStatus.error, message := some (e maxRetries),
         jobId := none }, maxRetries + 1,
        [retryDelay, retryDelay * backoffMultiplier,
          retryDelay * backoffMultiplier ^ 2]) := by
  have h0 := h 0
  have h1 := h 1
  have h2 := h 2
  have h3 := h 3
  refine ⟨?_, rfl, by decide, ?_⟩ <;>
    simp [retryWithBackoff, processImageWithRetry, maxRetries, retryDelay,
      backoffMultiplier, h0, h1, h2, h3]

/-- Witness for the retry theorem at a concrete always-failing call. -/
theorem alwaysFailing_retry_behavior_witness :
    retryWithBackoff (fun k => (Except.error (toString k) : Except String WRResult))
        maxRetries retryDelay =
      (Except.error (toString maxRetries), maxRetries + 1,
        [retryDelay, retryDelay * backoffMultiplier,
          retryDelay * backoffMultiplier ^ 2]) :=
  (alwaysFailing_retry_behavior (fun k => Except.error (toString k)) toString
    "https://example.com/a.jpg" "a.jpg" (fun _ => rfl)).1

/-- Concurrency limit of the batch scheduler (`const concurrencyLimit = 2`
in `route.ts`). -/
def concurrencyLimit : Nat := 2

/-- Embedding of the window loop in `POST`
(`for (let i = 0; i < imagesToProcess.length; i += concurrencyLimit)`):
partition the task list into consecutive windows `slice(i, i + c)`.  For a
limit `c ≥ 1` this is exactly the partition the loop walks through. -/
def chunkList (c : Nat) : List α → List (List α)
  | [] => []
  | a :: l => (a :: l).take c :: chunkList c (l.drop (c - 1))
termination_by l => l.length
decreasing_by
  simp only [List.length_drop, List.length_cons]
  omega

theorem chunkList_nil (c : Nat) : chunkList c ([] : List α) = [] := by
  simp [chunkList]

theorem chunkList_cons (c : Nat) (a : α) (l : List α) :
    chunkList c (a :: l) = (a :: l).take c :: chunkList c (l.drop (c - 1)) := by
  rw [chunkList]

/-- The windows, concatenated back together, give the original task list:
every task appears exactly once, in input order. -/
theorem chunkList_join (c : Nat) (hc : 1 ≤ c) (l : List α) :
    (chunkList c l).flatten = l := by
  induction l using chunkList.induct c with
  | case1 => simp [chunkList_nil]
  | case2 a l ih =>
    rw [chunkList_cons, List.flatten_cons, ih]
    have : (a :: l).drop c = l.drop (c - 1) := by
      cases c with
      | zero => omega
      | succ n => simp
    rw [← this, List.take_append_drop]

/-- The number of windows is `⌈N / c⌉`, written `(N + c - 1) / c` in `Nat`. -/
theorem chunkList_length (c : Nat) (hc : 1 ≤ c) (l : List α) :
    (chunkList c l).length = (l.length + c - 1) / c := by
  induction l using chunkList.induct c with
  | case1 =>
    have : (0 + c - 1) / c = 0 := Nat.div_eq_of_lt (by omega)
    simpa [chunkList_nil] using this.symm
  | case2 a l ih =>
    rw [chunkList_cons]
    simp only [List.length_cons, List.length_drop] at *
    rw [ih]
    rcases le_or_lt (c - 1) l.length with hle | hlt
    · have h1 : l.length - (c - 1) + c - 1 = l.length := by omega
      have h2 : l.length + 1 + c - 1 = l.length + c := by omega
      rw [h1, h2, Nat.add_div_right _ (by omega)]
    · have h1 : l.length - (c - 1) + c - 1 = c - 1 := by omega
      have h2 : (c - 1) / c = 0 := Nat.div_eq_of_lt (by omega)
      have h3 : (l.length + 1 + c - 1) / c = 1 :=
        Nat.div_eq_of_lt_le (by omega) (by omega)
      rw [h1, h2, h3]

/-- One window of the batch scheduler: `batch.map(async image => ...)` runs
`f` on every task of the window (the per-task body). -/
def runWindow (f : Nat × α → β) (w : List (Nat × α)) : List β := w.map f

/-- The window sequence the scheduler executes: the task list (paired with
task indices) is cut into windows of size `c`, and the windows are awaited
strictly one after the other, in input order. -/
def scheduleWindows (f : Nat × α → β) (tasks : List α) (c : Nat) :
    List (List β) :=
  (chunkList c tasks.enum).map (runWindow f)

/-- The flat result list the scheduler accumulates
(`results.push(...batchResults)` after each window). -/
def runBatch (f : Nat × α → β) (tasks : List α) (c : Nat) : List β :=
  (scheduleWindows f tasks c).flatten

/-- C2: for a task list of size `N` and a concurrency limit `c ≥ 1`, the
scheduler executes exactly `⌈N / c⌉` windows (written `(N + c - 1) / c`),
the windows partition the task list in input order (their concatenation is
the per-task results in input order), and the total number of tasks
processed equals `N`. -/
theorem scheduler_window_count (f : Nat × α → β) (tasks : List α) (c : Nat)
    (hc : 1 ≤ c) (hn : 1 ≤ tasks.length) :
    (scheduleWindows f tasks c).length = (tasks.length + c - 1) / c ∧
    (scheduleWindows f tasks c).flatten = tasks.enum.map f ∧
    (runBatch f tasks c).length = tasks.length := by
  have hj : (chunkList c tasks.enum).flatten = tasks.enum :=
    chunkList_join c hc tasks.enum
  have hflat : (scheduleWindows f tasks c).flatten = tasks.enum.map f := by
    unfold scheduleWindows runWindow
    rw [← List.map_flatten, hj]
  refine ⟨?_, hflat, ?_⟩
  · unfold scheduleWindows
    rw [List.length_map, chunkList_length c hc, List.enum_length]
  · unfold runBatch
    rw [hflat, List.length_map, List.enum_length]

/-- Witness for the scheduler theorem: three tasks at concurrency 2 give
two windows and three results. -/
theorem scheduler_window_count_witness :
    (scheduleWindows (fun p => p.2 * 10) [1, 2, 3] 2).length = (3 + 2 - 1) / 2 ∧
    (scheduleWindows (fun p => p.2 * 10) [1, 2, 3] 2).flatten =
      ([1, 2, 3].enum.map fun p => p.2 * 10) ∧
    (runBatch (fun p => p.2 * 10) [1, 2, 3] 2).length = 3 :=
  scheduler_window_count (fun p => p.2 * 10) [1, 2, 3] 2 (by decide) (by decide)

/-- Status of a whole batch (`"processing" | "completed" | "error"`). -/
inductive BatchStatus
  | processing
  | completed
  | error
deriving Repr, DecidableEq

/-- Progress snapshot per session, mirroring `ProcessingProgress` in
`route.ts` (`total, completed, current, status, results`). -/
structure ProcessingProgress where
  total : Nat
  completed : Nat
  current : String
  status : BatchStatus
  results : List ProcessingResult
deriving Repr, DecidableEq

/-- The snapshot seeded at batch start (`{ total, completed: 0, current: "",
status: "processing", results: [] }`). -/
def initProgress (n : Nat) : ProcessingProgress :=
  { total := n, completed := 0, current := "", status := BatchStatus.processing,
    results := [] }

/-- Events a window task performs on the shared snapshot.  `setCurrent`
models the pre-call write `currentProgress.current = image.filename`;
`complete` models the post-call block that increments `completed`, appends
the result, and flips the terminal state.  The JavaScript runtime executes
each event atomically (single-threaded event ordering), so an execution of
the batch is an arbitrary interleaving: a list of events. -/
inductive ProgressEv
  | setCurrent (fn : String)
  | complete (r : ProcessingResult)

/-- One event applied to the snapshot, exactly as in `route.ts` lines
251-273: on completion, increment `completed`, push the result, and if
`completed >= total` set status `"completed"` and clear `current`. -/
def progressStep (p : ProcessingProgress) : ProgressEv → ProcessingProgress
  | ProgressEv.setCurrent fn => { p with current := fn }
  | ProgressEv.complete r =>
    let q := { p with completed := p.completed + 1,
                      results := p.results ++ [r] }
    if q.total ≤ q.completed then
      { q with status := BatchStatus.completed, current := "" }
    else q

/-- State of the session snapshot after an event interleaving. -/
def runProgress (n : Nat) (evs : List ProgressEv) : ProcessingProgress :=
  evs.foldl progressStep (initProgress n)

/-- Number of completion events in an interleaving. -/
def countComplete (evs : List ProgressEv) : Nat :=
  (evs.filter fun e => match e with
    | ProgressEv.complete _ => true
    | _ => false).length

theorem countComplete_append (a b : List ProgressEv) :
    countComplete (a ++ b) = countComplete a + countComplete b := by
  simp [countComplete, List.filter_append]

/-- A completion event always increments `completed` and appends the result,
whether or not it is the terminal one. -/
theorem progressStep_complete_fields (p : ProcessingProgress)
    (r : ProcessingResult) :
    (progressStep p (ProgressEv.complete r)).total = p.total ∧
    (progressStep p (ProgressEv.complete r)).completed = p.completed + 1 ∧
    (progressStep p (ProgressEv.complete r)).results = p.results ++ [r] := by
  simp only [progressStep]
  split <;> simp

/-- Folding from any snapshot preserves `total` and advances `completed` and
`results.length` by exactly the number of completion events. -/
theorem foldProgress_facts (evs : List ProgressEv) (p : ProcessingProgress) :
    (evs.foldl progressStep p).total = p.total ∧
    (evs.foldl progressStep p).completed = p.completed + countComplete evs ∧
    (evs.foldl progressStep p).results.length =
      p.results.length + countComplete evs := by
  induction evs generalizing p with
  | nil => simp [countComplete]
  | cons e t ih =>
    rcases ih (progressStep p e) with ⟨ht, hc, hr⟩
    rw [List.foldl_cons]
    cases e with
    | setCurrent fn =>
      refine ⟨?_, ?_, ?_⟩
      · rw [ht]; rfl
      · rw [hc]; simp [progressStep, countComplete, List.filter_cons]
      · rw [hr]; simp [progressStep, countComplete, List.filter_cons]
    | complete r =>
      rcases progressStep_complete_fields p r with ⟨f1, f2, f3⟩
      refine ⟨?_, ?_, ?_⟩
      · rw [ht, f1]
      · rw [hc, f2]
        simp only [countComplete, List.filter_cons]
        simp
        omega
      · rw [hr, f3]
        simp only [countComplete, List.filter_cons, List.length_append]
        simp
        omega

/-- C3: for a session of `n` tasks and every interleaving of `setCurrent`
and completion events, the snapshot invariant holds at every externally
observed instant: `results.length = completed` always, `total` never changes
from its creation value, `completed` equals the number of completion events
seen so far (hence increases monotonically from 0 along every prefix and is
bounded by `n` while at most `n` completions occur), and when the last
completion (the `n`-th) lands, the status flips to `completed` and `current`
is cleared to the empty string. -/
theorem progress_invariant (n : Nat) (evs : List ProgressEv) :
    (runProgress n evs).results.length = (runProgress n evs).completed ∧
    (runProgress n evs).total = n ∧
    (runProgress n evs).completed = countComplete evs ∧
    (∀ pre suf, evs = pre ++ suf →
      (runProgress n pre).completed ≤ (runProgress n evs).completed) ∧
    (countComplete evs ≤ n → (runProgress n evs).completed ≤ n) ∧
    (countComplete evs = n →
      ∀ (front : List ProgressEv) (r : ProcessingResult),
        evs = front ++ [ProgressEv.complete r] →
        (runProgress n evs).status = BatchStatus.completed ∧
        (runProgress n evs).current = "") := by
  rcases foldProgress_facts evs (initProgress n) with ⟨ht, hc, hr⟩
  have htot : (runProgress n evs).total = n := by
    simpa [runProgress, initProgress] using ht
  have hcomp : (runProgress n evs).completed = countComplete evs := by
    simpa [runProgress, initProgress] using hc
  have hres : (runProgress n evs).results.length = countComplete evs := by
    simpa [runProgress, initProgress] using hr
  refine ⟨by rw [hres, hcomp], htot, hcomp, ?_, ?_, ?_⟩
  · intro pre suf hsplit
    have hpre : (runProgress n pre).completed = countComplete pre := by
      rcases foldProgress_facts pre (initProgress n) with ⟨-, hcp, -⟩
      simpa [runProgress, initProgress] using hcp
    rw [hpre, hcomp, hsplit, countComplete_append]
    omega
  · intro hle
    rw [hcomp]; exact hle
  · intro hdone front r hsplit
    have hfront : (runProgress n front).completed = countComplete front ∧
        (runProgress n front).total = n := by
      rcases foldProgress_facts front (initProgress n) with ⟨htf, hcf, -⟩
      constructor
      · simpa [runProgress, initProgress] using hcf
      · simpa [runProgress, initProgress] using htf
    have hstep : runProgress n evs =
        progressStep (runProgress n front) (ProgressEv.complete r) := by
      rw [hsplit, runProgress, List.foldl_append]
      rfl
    have hcnt : countComplete front + 1 = n := by
      rw [hsplit, countComplete_append] at hdone
      simpa [countComplete, List.filter_cons] using hdone
    have hcond : (runProgress n front).total ≤
        (runProgress n front).completed + 1 := by
      rw [hfront.1, hfront.2]
      omega
    rw [hstep]
    simp only [progressStep]
    rw [if_pos (by simpa using hcond)]
    exact ⟨rfl, rfl⟩

/-- Witness: two tasks, interleaved as the runtime would produce them. -/
theorem progress_invariant_witness :
    (runProgress 2 [ProgressEv.setCurrent "a.jpg", ProgressEv.setCurrent "b.jpg",
        ProgressEv.complete ⟨"u1", "p1", "a.jpg", PStatus.success, none, none⟩,
        ProgressEv.complete ⟨"u2", "u2", "b.jpg", PStatus.error, some "x", none⟩]).status =
      BatchStatus.completed ∧
    (runProgress 2 [ProgressEv.setCurrent "a.jpg", ProgressEv.setCurrent "b.jpg",
        ProgressEv.complete ⟨"u1", "p1", "a.jpg", PStatus.success, none, none⟩,
        ProgressEv.complete ⟨"u2", "u2", "b.jpg", PStatus.error, some "x", none⟩]).current = "" :=
  (progress_invariant 2 _).2.2.2.2.2 (by decide)
    [ProgressEv.setCurrent "a.jpg", ProgressEv.setCurrent "b.jpg",
      ProgressEv.complete ⟨"u1", "p1", "a.jpg", PStatus.success, none, none⟩]
    ⟨"u2", "u2", "b.jpg", PStatus.error, some "x", none⟩ rfl

/-- Per-task body the scheduler runs: `processImageWithRetry(api, image.url,
image.filename)`, with the provider oracle indexed by task number.  Only the
resulting `ProcessingResult` flows into the response list. -/
def taskBody (oracle : Nat → Nat → Except String WRResult)
    (p : Nat × (String × String)) : ProcessingResult :=
  (processImageWithRetry (oracle p.1) p.2.1 p.2.2).1

/-- The whole processing loop of `POST`: windows of `(url, filename)` tasks,
each task run through retry + provider call, results flattened in window
order. -/
def runPipeline (oracle : Nat → Nat → Except String WRResult)
    (tasks : List (String × String)) (c : Nat) : List ProcessingResult :=
  runBatch (taskBody oracle) tasks c

/-- Helper: a task whose every provider invocation rejects ends as an
error-status result defaulting `processedUrl` to the original URL. -/
theorem processImageWithRetry_fst_alwaysFail
    (call : Nat → Except String WRResult) (e : Nat → String) (url fn : String)
    (h : ∀ k, call k = Except.error (e k)) :
    (processImageWithRetry call url fn).1 =
      { originalUrl := url, processedUrl := url, filename := fn,
        status := PStatus.error, message := some (e maxRetries),
        jobId := none } := by
  have h0 := h 0
  have h1 := h 1
  have h2 := h 2
  have h3 := h 3
  simp [processImageWithRetry, retryWithBackoff, maxRetries, retryDelay,
    backoffMultiplier, h0, h1, h2, h3]

/-- Helper: a provider call that resolves with `success: false` on the first
invocation is not retried and ends as an error-status result with
`processedUrl` defaulted to the original URL. -/
theorem processImageWithRetry_fst_resolvedFail
    (call : Nat → Except String WRResult) (r : WRResult) (url fn : String)
    (h0 : call 0 = Except.ok r) (hs : r.success = false) :
    (processImageWithRetry call url fn).1 =
      { originalUrl := url, processedUrl := url, filename := fn,
        status := PStatus.error,
        message := some (orElseStr r.error "Processing failed"),
        jobId := none } := by
  simp [processImageWithRetry, retryWithBackoff, maxRetries, retryDelay, h0, hs]

/-- C4: a provider-level failure of one task never aborts the batch.  The
response has exactly one `ProcessingResult` per task; the whole batch equals
the per-task map (so every other task is still processed); a task whose
provider calls always reject yields an error-status result whose
`processedUrl` is the original URL of the task (with the final rejection message),
and a task whose provider call resolves with `success: false` likewise
yields such an error-status result. -/
theorem batch_failure_isolated (oracle : Nat → Nat → Except String WRResult)
    (tasks : List (String × String)) (c : Nat) (hc : 1 ≤ c) :
    (runPipeline oracle tasks c).length = tasks.length ∧
    runPipeline oracle tasks c = tasks.enum.map (taskBody oracle) ∧
    (∀ i url fn (e : Nat → String), tasks[i]? = some (url, fn) →
      (∀ k, oracle i k = Except.error (e k)) →
      (runPipeline oracle tasks c)[i]? =
        some { originalUrl := url, processedUrl := url, filename := fn,
               status := PStatus.error, message := some (e maxRetries),
               jobId := none }) ∧
    (∀ i url fn (r : WRResult), tasks[i]? = some (url, fn) →
      oracle i 0 = Except.ok r → r.success = false →
      (runPipeline oracle tasks c)[i]? =
        some { originalUrl := url, processedUrl := url, filename := fn,
               status := PStatus.error,
               message := some (orElseStr r.error "Processing failed"),
               jobId := none }) := by
  have hflat : runPipeline oracle tasks c = tasks.enum.map (taskBody oracle) := by
    unfold runPipeline runBatch scheduleWindows runWindow
    rw [← List.map_flatten, chunkList_join c hc]
  refine ⟨?_, hflat, ?_, ?_⟩
  · rw [hflat, List.length_map, List.enum_length]
  · intro i url fn e hi hfail
    rw [hflat, List.getElem?_map, List.getElem?_enum, hi]
    simp only [Option.map_some']
    rw [taskBody, processImageWithRetry_fst_alwaysFail (oracle i) e url fn hfail]
  · intro i url fn r hi hok hs
    rw [hflat, List.getElem?_map, List.getElem?_enum, hi]
    simp only [Option.map_some']
    rw [taskBody, processImageWithRetry_fst_resolvedFail (oracle i) r url fn hok hs]

/-- Witness: a two-task batch in which task 0 always rejects and task 1
resolves with a failure; both tasks appear in the response as error-status
results carrying their original URLs. -/
theorem batch_failure_isolated_witness :
    (runPipeline
        (fun i k => if i = 0 then Except.error ("fail" ++ toString k)
          else Except.ok ⟨false, none, some "bad", none⟩)
        [("u0", "f0"), ("u1", "f1")] 2).length = 2 ∧
    (runPipeline
        (fun i k => if i = 0 then Except.error ("fail" ++ toString k)
          else Except.ok ⟨false, none, some "bad", none⟩)
        [("u0", "f0"), ("u1", "f1")] 2)[0]? =
      some { originalUrl := "u0", processedUrl := "u0", filename := "f0",
             status := PStatus.error, message := some ("fail" ++ toString maxRetries),
             jobId := none } ∧
    (runPipeline
        (fun i k => if i = 0 then Except.error ("fail" ++ toString k)
          else Except.ok ⟨false, none, some "bad", none⟩)
        [("u0", "f0"), ("u1", "f1")] 2)[1]? =
      some { originalUrl := "u1", processedUrl := "u1", filename := "f1",
             status := PStatus.error,
             message := some (orElseStr (some "bad") "Processing failed"),
             jobId := none } := by
  have h := batch_failure_isolated
    (fun i k => if i = 0 then Except.error ("fail" ++ toString k)
      else Except.ok ⟨false, none, some "bad", none⟩)
    [("u0", "f0"), ("u1", "f1")] 2 (by decide)
  exact ⟨h.1, h.2.2.1 0 "u0" "f0" (fun k => "fail" ++ toString k) rfl (fun k => rfl),
    h.2.2.2 1 "u1" "f1" ⟨false, none, some "bad", none⟩ rfl rfl rfl⟩

/-- Response of the progress-polling `GET` handler in `route.ts`: an error
body with an HTTP status, or the current snapshot (HTTP 200). -/
inductive GetProgressResp
  | err (msg : String) (status : Nat)
  | okProg (p : ProcessingProgress)
deriving Repr, DecidableEq

/-- Embedding of the `GET` handler of `route.ts` (lines 294-309): the
progress store is the in-memory `Map`, modelled as a lookup function;
`searchParams.get("sessionId")` yields `none` when the parameter is absent
(and the empty string is falsy, hence also rejected as missing). -/
def getProgressHandler (store : String → Option ProcessingProgress)
    (sessionId : Option String) : GetProgressResp :=
  match sessionId with
  | none => GetProgressResp.err "Session ID required" 400
  | some sid =>
    if sid = "" then GetProgressResp.err "Session ID required" 400
    else match store sid with
      | none => GetProgressResp.err "Session not found" 404
      | some p => GetProgressResp.okProg p

/-- C8: polling with no `sessionId` yields a 400 error; a `sessionId` the
progress store does not know yields a 404 error; a known `sessionId` yields
the current snapshot for that session. -/
theorem get_progress_status_mapping
    (store : String → Option ProcessingProgress) :
    getProgressHandler store none = GetProgressResp.err "Session ID required" 400 ∧
    (∀ sid, sid ≠ "" → store sid = none →
      getProgressHandler store (some sid) =
        GetProgressResp.err "Session not found" 404) ∧
    (∀ sid p, sid ≠ "" → store sid = some p →
      getProgressHandler store (some sid) = GetProgressResp.okProg p) := by
  refine ⟨rfl, ?_, ?_⟩
  · intro sid hne hnone
    simp [getProgressHandler, hne, hnone]
  · intro sid p hne hsome
    simp [getProgressHandler, hne, hsome]

/-- Witness: a one-entry store answers 400 / 404 / snapshot as mapped. -/
theorem get_progress_status_mapping_witness :
    getProgressHandler (fun s => if s = "sess1" then some (initProgress 3) else none)
        none = GetProgressResp.err "Session ID required" 400 ∧
    getProgressHandler (fun s => if s = "sess1" then some (initProgress 3) else none)
        (some "nope") = GetProgressResp.err "Session not found" 404 ∧
    getProgressHandler (fun s => if s = "sess1" then some (initProgress 3) else none)
        (some "sess1") = GetProgressResp.okProg (initProgress 3) := by
  have h := get_progress_status_mapping
    (fun s => if s = "sess1" then some (initProgress 3) else none)
  exact ⟨h.1, h.2.1 "nope" (by decide) rfl, h.2.2 "sess1" (initProgress 3) (by decide) rfl⟩

/-- Response body of `GET /api/status` (`src/app/api/status/route.ts`).  The
source field `keyPrefix` is named `keyPrefixVal` here. -/
structure StatusResp where
  demoMode : Bool
  apiConfigured : Bool
  apiKeyFormat : String
  provider : String
  message : String
  keyLength : Nat
  keyPrefixVal : Option String
  emailConfigured : Bool
  passwordConfigured : Bool
deriving Repr, DecidableEq

/-- Embedding of the status route `GET`: environment inputs are the raw
optional values of `FAL_KEY`, `FAL_API_KEY`, `DEMO_MODE`, `FAL_EMAIL` and
`FAL_PASSWORD`. -/
def statusGET (falKey falApiKey demoFlag falEmail falPassword : Option String) :
    StatusResp :=
  let apiKey := firstTruthy falKey falApiKey
  let demoMode := demoFlag = some "true"
  let isValidFormat := match apiKey with
    | some s => decide (10 < s.length)
    | none => false
  { demoMode := demoMode
    apiConfigured := apiKey.isSome
    apiKeyFormat := if isValidFormat then "valid" else "invalid"
    provider := if demoMode then "demo" else if apiKey.isSome then "fal" else "demo"
    message :=
      if demoMode then "Running in demo mode (DEMO_MODE=true)"
      else match apiKey with
        | some _ =>
          "Fal.ai API key configured " ++
            (if isValidFormat then "(format looks correct)" else "(please check format)")
        | none => "No API key found - running in demo mode"
    keyLength := match apiKey with
      | some s => s.length
      | none => 0
    keyPrefixVal := apiKey.map (fun s => s.take 4 ++ "...")
    emailConfigured := truthyStr falEmail
    passwordConfigured := truthyStr falPassword }

/-- Helper: a string of length zero is the empty string. -/
theorem strLenZero (s : String) (h : s.length = 0) : s = "" := by
  cases s with
  | mk d => cases d with
    | nil => rfl
    | cons a t => simp [String.length] at h

/-- Helper: the status response is a function only of the first four
characters and the length of the effective key (plus the other environment
inputs). -/
theorem statusGET_key_dependence (k k' : Option String)
    (demoFlag falEmail falPassword : Option String)
    (hsome : k.isSome = k'.isSome)
    (h4 : k.map (String.take · 4) = k'.map (String.take · 4))
    (hlen : k.map String.length = k'.map String.length) :
    statusGET k none demoFlag falEmail falPassword =
      statusGET k' none demoFlag falEmail falPassword := by
  cases k with
  | none =>
    cases k' with
    | none => rfl
    | some t => simp at hsome
  | some s =>
    cases k' with
    | none => simp at hsome
    | some t =>
      simp only [Option.map_some', Option.some.injEq] at h4 hlen
      have hempt : (s = "") ↔ (t = "") := by
        constructor <;> intro hx <;> subst hx
        · exact strLenZero t hlen.symm
        · exact strLenZero s hlen
      by_cases hs : s = ""
      · have ht : t = "" := hempt.mp hs
        simp [statusGET, firstTruthy, hs, ht]
      · have ht : t ≠ "" := fun hx => hs (hempt.mpr hx)
        simp [statusGET, firstTruthy, hs, ht, h4, hlen]

/-- C9: the status response never contains the credential value itself, only
a four-character prefix and a length: any two configured credential values
that agree on their first four characters and on their length, with all
other environment inputs equal, produce identical responses; and for a
nonempty credential the key fields of the response are exactly the
four-character prefix (with an ellipsis) and the length. -/
theorem status_no_credential_leak (k k' : String)
    (falApiKey demoFlag falEmail falPassword : Option String)
    (h4 : k.take 4 = k'.take 4) (hlen : k.length = k'.length) :
    statusGET (some k) falApiKey demoFlag falEmail falPassword =
      statusGET (some k') falApiKey demoFlag falEmail falPassword ∧
    (k ≠ "" →
      (statusGET (some k) falApiKey demoFlag falEmail falPassword).keyPrefixVal =
        some (k.take 4 ++ "...") ∧
      (statusGET (some k) falApiKey demoFlag falEmail falPassword).keyLength =
        k.length) := by
  have hempt : (k = "") ↔ (k' = "") := by
    constructor <;> intro hx <;> subst hx
    · exact strLenZero k' hlen.symm
    · exact strLenZero k hlen
  constructor
  · by_cases hk : k = ""
    · have hk' : k' = "" := hempt.mp hk
      subst hk
      subst hk'
      rfl
    · have hk' : k' ≠ "" := fun hx => hk (hempt.mpr hx)
      simp [statusGET, firstTruthy, hk, hk', h4, hlen]
  · intro hk
    simp [statusGET, firstTruthy, hk]

/-- Witness: two distinct keys sharing prefix `abcd` and length 11 produce
the same status response, whose key-prefix field carries only `abcd...`. -/
theorem status_no_credential_leak_witness :
    statusGET (some "abcd1234567") none none none none =
      statusGET (some "abcdX23456Z") none none none none ∧
    (statusGET (some "abcd1234567") none none none none).keyPrefixVal =
      some ("abcd1234567".take 4 ++ "...") := by
  have h := status_no_credential_leak "abcd1234567" "abcdX23456Z"
    none none none none (by decide) (by decide)
  exact ⟨h.1, (h.2 (by decide)).1⟩

/-- JavaScript `s.replace(pat, repl)` for a plain string pattern: replace the
first (leftmost) occurrence of `pat`, leaving `s` unchanged when `pat` does
not occur. -/
def replaceLit (pat repl : List Char) : List Char → List Char
  | [] => []
  | c :: cs =>
    if pat.isPrefixOf (c :: cs) then repl ++ (c :: cs).drop pat.length
    else c :: replaceLit pat repl cs

/-- JavaScript `s.replace(/<pat>\d+/, pat + repl)` for a literal `pat`
followed by one or more digits (the `/\/w_\d+/`-style rewrites in the
gallery scraper): replace the leftmost occurrence of `pat` followed by a
maximal nonempty digit run with `pat ++ repl`. -/
def replaceDigitsRun (pat repl : List Char) : List Char → List Char
  | [] => []
  | c :: cs =>
    if pat.isPrefixOf (c :: cs) &&
        (((c :: cs).drop pat.length).headD ' ').isDigit then
      pat ++ repl ++ ((c :: cs).drop pat.length).dropWhile Char.isDigit
    else c :: replaceDigitsRun pat repl cs

/-- String-level wrapper of `replaceLit`. -/
def replaceLitStr (pat repl s : String) : String :=
  ⟨replaceLit pat.toList repl.toList s.toList⟩

/-- String-level wrapper of `replaceDigitsRun`. -/
def replaceDigitsStr (pat repl s : String) : String :=
  ⟨replaceDigitsRun pat.toList repl.toList s.toList⟩

/-- The high-resolution URL rewrite of the gallery scraper:
`.replace(/\/w_\d+/, "/w_2048").replace(/\/h_\d+/, "/h_2048").replace(/\/c_fill/, "/c_fit")`. -/
def highRes (src : String) : String :=
  replaceLitStr "/c_fill" "/c_fit"
    (replaceDigitsStr "/h_" "2048" (replaceDigitsStr "/w_" "2048" src))

/-- One extracted gallery image (`{url, filename, thumbnail?}`). -/
structure GalleryImage where
  url : String
  filename : String
  thumbnail : Option String
deriving Repr, DecidableEq

/-- The fetched gallery page as seen by the four extraction strategies.  The
HTML parsing itself is done by the external `cheerio` library (and, for
strategy 4, by the JavaScript regex engine); the page is therefore modelled
by what those external collaborators hand each strategy: the `data-src`
attribute values in document order, the `src` attribute values, the parsed
JSON-LD image arrays per script (scripts whose JSON fails to parse or has no
`image` field are absent), the regex match lists per script, and the raw
HTML text used for the password / platform sniffing. -/
structure GalleryPage where
  dataSrcAttrs : List String
  srcAttrs : List String
  ldJsonImages : List (List String)
  scriptUrlMatches : List (List String)
  html : String

/-- Strategy 1 (`img[data-src]`, lazy loading): push every attribute value
containing `pixieset`, rewritten to high resolution, with a
`pixieset_image_N` filename keyed by the running image count; no duplicate
check. -/
def strategy1 (acc : List GalleryImage) (attrs : List String) :
    List GalleryImage :=
  attrs.foldl (fun imgs src =>
    if substr "pixieset" src then
      imgs ++ [{ url := highRes src,
                 filename := "pixieset_image_" ++ toString (imgs.length + 1) ++ ".jpg",
                 thumbnail := some src }]
    else imgs) acc

/-- Strategy 2 (`img[src]`): like strategy 1 but also excluding `logo` and
`icon` URLs and skipping a URL whose high-resolution form is already
collected. -/
def strategy2 (acc : List GalleryImage) (attrs : List String) :
    List GalleryImage :=
  attrs.foldl (fun imgs src =>
    if substr "pixieset" src && !(substr "logo" src) && !(substr "icon" src) then
      if imgs.any (fun i => i.url == highRes src) then imgs
      else
        imgs ++ [{ url := highRes src,
                   filename := "pixieset_image_" ++ toString (imgs.length + 1) ++ ".jpg",
                   thumbnail := some src }]
    else imgs) acc

/-- Strategy 3 (JSON-LD structured data): push every `pixieset` URL of every
parsed `image` array, with a `structured_image_N` filename keyed by the
index inside the array of that script; no duplicate check. -/
def strategy3 (acc : List GalleryImage) (scripts : List (List String)) :
    List GalleryImage :=
  scripts.foldl (fun imgs urls =>
    urls.enum.foldl (fun imgs2 p =>
      if substr "pixieset" p.2 then
        imgs2 ++ [{ url := p.2,
                    filename := "structured_image_" ++ toString (p.1 + 1) ++ ".jpg",
                    thumbnail := some p.2 }]
      else imgs2) imgs) acc

/-- Strategy 4 (script-literal URL patterns): push every regex match not
already collected, with a `js_extracted_N` filename keyed by the match index
inside that script. -/
def strategy4 (acc : List GalleryImage) (scripts : List (List String)) :
    List GalleryImage :=
  scripts.foldl (fun imgs ms =>
    ms.enum.foldl (fun imgs2 p =>
      if imgs2.any (fun i => i.url == p.2) then imgs2
      else
        imgs2 ++ [{ url := p.2,
                    filename := "js_extracted_" ++ toString (p.1 + 1) ++ ".jpg",
                    thumbnail := some p.2 }]) imgs) acc

/-- All candidate images the four strategies accumulate, in discovery
order. -/
def collectImages (p : GalleryPage) : List GalleryImage :=
  strategy4
    (strategy3 (strategy2 (strategy1 [] p.dataSrcAttrs) p.srcAttrs)
      p.ldJsonImages)
    p.scriptUrlMatches

/-- The final deduplication filter
(`images.filter((img, index, self) => index === self.findIndex(i => i.url === img.url))`):
keep an image exactly when its position equals the first position holding
its URL. -/
def dedupByUrl (l : List GalleryImage) : List GalleryImage :=
  (l.enum.filter (fun p =>
    l.findIdx (fun j => j.url == p.2.url) == p.1)).map Prod.snd

/-- Embedding of `extractPixiesetGallery` after a successful page fetch:
dedupe, sniff the zero-image cases, and cap the result at 20 images. -/
def extractPixiesetGallery (p : GalleryPage) :
    Except String (List GalleryImage) :=
  let uniqueImages := dedupByUrl (collectImages p)
  if uniqueImages.length = 0 then
    if substr "password" p.html || substr "Password" p.html then
      Except.error "Gallery appears to be password protected"
    else if !(substr "pixieset" p.html) then
      Except.error "This doesn\x27t appear to be a Pixieset gallery page"
    else Except.ok (uniqueImages.take 20)
  else Except.ok (uniqueImages.take 20)

/-- Helper: the indices in `enumFrom` are strictly increasing. -/
theorem enumFrom_pairwise_lt (k : Nat) (l : List α) :
    (List.enumFrom k l).Pairwise (fun a b => a.1 < b.1) := by
  induction l generalizing k with
  | nil => simp
  | cons a t ih =>
    refine List.Pairwise.cons ?_ (ih (k + 1))
    intro p hp
    exact Nat.lt_of_lt_of_le (Nat.lt_succ_self k) (List.le_fst_of_mem_enumFrom hp)

/-- Helper: the deduplication filter leaves pairwise-distinct URLs. -/
theorem dedupByUrl_pairwise (l : List GalleryImage) :
    (dedupByUrl l).Pairwise (fun a b => a.url ≠ b.url) := by
  unfold dedupByUrl
  have h1 : l.enum.Pairwise (fun a b : Nat × GalleryImage => a.1 < b.1) := by
    simpa [List.enum] using enumFrom_pairwise_lt 0 l
  have h2 := List.Pairwise.filter
    (fun p : Nat × GalleryImage => l.findIdx (fun j => j.url == p.2.url) == p.1) h1
  have h3 : (l.enum.filter (fun p : Nat × GalleryImage =>
      l.findIdx (fun j => j.url == p.2.url) == p.1)).Pairwise
        (fun a b : Nat × GalleryImage => a.2.url ≠ b.2.url) := by
    refine List.Pairwise.imp_of_mem ?_ h2
    intro a b ha hb hlt hurl
    have pa := List.of_mem_filter ha
    have pb := List.of_mem_filter hb
    simp only [beq_iff_eq] at pa pb
    rw [hurl] at pa
    exact Nat.ne_of_lt hlt (pa.symm.trans pb)
  exact List.Pairwise.map Prod.snd (fun a b h => h) h3

/-- Helper: a successful extraction is the deduplicated discovery list,
capped at 20. -/
theorem extract_ok_shape (p : GalleryPage) (l : List GalleryImage)
    (h : extractPixiesetGallery p = Except.ok l) :
    l = (dedupByUrl (collectImages p)).take 20 := by
  simp only [extractPixiesetGallery] at h
  split_ifs at h <;> simp_all

/-- Outcome of the page fetch inside `extractPixiesetGallery`: success,
non-OK HTTP status (thrown as `HTTP <status>: <statusText>`), or a rejected
fetch. -/
inductive GalleryFetch
  | ok (p : GalleryPage)
  | httpError (status : Nat) (statusText : String)
  | netError (msg : String)

/-- The whole `extractPixiesetGallery` including its fetch and its outer
catch, which wraps every thrown error as
`Failed to extract gallery: <message>` and rethrows. -/
def extractPixiesetGalleryFull (fo : GalleryFetch) :
    Except String (List GalleryImage) :=
  match fo with
  | GalleryFetch.ok p =>
    match extractPixiesetGallery p with
    | Except.ok l => Except.ok l
    | Except.error m => Except.error ("Failed to extract gallery: " ++ m)
  | GalleryFetch.httpError st stx =>
    Except.error ("Failed to extract gallery: HTTP " ++ toString st ++ ": " ++ stx)
  | GalleryFetch.netError m =>
    Except.error ("Failed to extract gallery: " ++ m)

/-- Response of the `POST /api/extract-gallery` route handler. -/
inductive ExtractResp
  | err (msg : String) (status : Nat)
  | ok (images : List GalleryImage)
deriving Repr, DecidableEq

/-- Embedding of the `POST` handler of the gallery route: `urlParses` is the
outcome of the external WHATWG `new URL(galleryUrl)` parser. -/
def extractGalleryPOST (galleryUrl : Option String) (urlParses : Bool)
    (fo : GalleryFetch) : ExtractResp :=
  match galleryUrl with
  | none => ExtractResp.err "Gallery URL is required" 400
  | some u =>
    if u = "" then ExtractResp.err "Gallery URL is required" 400
    else if !urlParses then ExtractResp.err "Invalid URL format" 400
    else if !(substr "pixieset.com" u) then
      ExtractResp.err "Currently only Pixieset galleries are supported" 400
    else match extractPixiesetGalleryFull fo with
      | Except.error m => ExtractResp.err m 500
      | Except.ok imgs =>
        if imgs.length = 0 then
          ExtractResp.err
            "No images found in the gallery. Please check the URL and ensure it\x27s a public gallery."
            404
        else ExtractResp.ok imgs

/-- C6: every successful extraction is deduplicated by URL and capped at 20
images; when zero images are found, the error distinguishes the
password-protected case and the not-a-Pixieset-page case from the generic
no-images case (which surfaces as an empty list); at the HTTP layer a
missing, malformed or non-Pixieset URL yields 400, zero images yields 404,
and a scrape failure yields 500. -/
theorem gallery_extraction_contract (p : GalleryPage) (u : String)
    (fo : GalleryFetch) :
    (∀ l, extractPixiesetGallery p = Except.ok l →
      l.Pairwise (fun a b => a.url ≠ b.url) ∧ l.length ≤ 20) ∧
    (dedupByUrl (collectImages p) = [] →
      (substr "password" p.html || substr "Password" p.html) = true →
      extractPixiesetGallery p =
        Except.error "Gallery appears to be password protected") ∧
    (dedupByUrl (collectImages p) = [] →
      (substr "password" p.html || substr "Password" p.html) = false →
      substr "pixieset" p.html = false →
      extractPixiesetGallery p =
        Except.error "This doesn\x27t appear to be a Pixieset gallery page") ∧
    (dedupByUrl (collectImages p) = [] →
      (substr "password" p.html || substr "Password" p.html) = false →
      substr "pixieset" p.html = true →
      extractPixiesetGallery p = Except.ok []) ∧
    extractGalleryPOST none true fo = ExtractResp.err "Gallery URL is required" 400 ∧
    (u ≠ "" → extractGalleryPOST (some u) false fo =
      ExtractResp.err "Invalid URL format" 400) ∧
    (u ≠ "" → substr "pixieset.com" u = false →
      extractGalleryPOST (some u) true fo =
        ExtractResp.err "Currently only Pixieset galleries are supported" 400) ∧
    (∀ m, u ≠ "" → substr "pixieset.com" u = true →
      extractPixiesetGalleryFull fo = Except.error m →
      extractGalleryPOST (some u) true fo = ExtractResp.err m 500) ∧
    (u ≠ "" → substr "pixieset.com" u = true →
      extractPixiesetGalleryFull fo = Except.ok [] →
      extractGalleryPOST (some u) true fo =
        ExtractResp.err
          "No images found in the gallery. Please check the URL and ensure it\x27s a public gallery."
          404) := by
  refine ⟨?_, ?_, ?_, ?_, rfl, ?_, ?_, ?_, ?_⟩
  · intro l hl
    have hshape := extract_ok_shape p l hl
    subst hshape
    exact ⟨List.Pairwise.sublist (List.take_sublist 20 _) (dedupByUrl_pairwise _),
      List.length_take_le 20 _⟩
  · intro hempty hsniff
    simp [extractPixiesetGallery, hempty, hsniff]
  · intro hempty hsniff hplat
    simp [extractPixiesetGallery, hempty, hsniff, hplat]
  · intro hempty hsniff hplat
    simp [extractPixiesetGallery, hempty, hsniff, hplat]
  · intro hu
    simp [extractGalleryPOST, hu]
  · intro hu hplat
    simp [extractGalleryPOST, hu, hplat]
  · intro m hu hplat hfail
    simp [extractGalleryPOST, hu, hplat, hfail]
  · intro hu hplat hnone
    simp [extractGalleryPOST, hu, hplat, hnone]

/-- Witness: a password-protected empty page errors descriptively, and the
route maps a missing URL to 400, an unsupported URL to 400, and a scrape
failure to 500. -/
theorem gallery_extraction_contract_witness :
    extractPixiesetGallery
        { dataSrcAttrs := [], srcAttrs := [], ldJsonImages := [],
          scriptUrlMatches := [], html := "Enter password" } =
      Except.error "Gallery appears to be password protected" ∧
    extractGalleryPOST none true (GalleryFetch.netError "boom") =
      ExtractResp.err "Gallery URL is required" 400 ∧
    extractGalleryPOST (some "https://example.com/g") true
        (GalleryFetch.netError "boom") =
      ExtractResp.err "Currently only Pixieset galleries are supported" 400 ∧
    extractGalleryPOST (some "https://demo.pixieset.com/g") true
        (GalleryFetch.netError "boom") =
      ExtractResp.err "Failed to extract gallery: boom" 500 := by
  have h1 := gallery_extraction_contract
    { dataSrcAttrs := [], srcAttrs := [], ldJsonImages := [],
      scriptUrlMatches := [], html := "Enter password" }
    "https://example.com/g" (GalleryFetch.netError "boom")
  have h2 := gallery_extraction_contract
    { dataSrcAttrs := [], srcAttrs := [], ldJsonImages := [],
      scriptUrlMatches := [], html := "Enter password" }
    "https://demo.pixieset.com/g" (GalleryFetch.netError "boom")
  exact ⟨h1.2.1 rfl (by decide), h1.2.2.2.2.1,
    h1.2.2.2.2.2.2.1 (by decide) (by decide),
    h2.2.2.2.2.2.2.2.1 "Failed to extract gallery: boom" (by decide) (by decide) rfl⟩

/-- C7: on a page carrying five platform image attributes of which two are
duplicate URLs, extraction returns exactly the three unique images, each
filename following the deterministic `pixieset_image_N` scheme keyed by
discovery order. -/
theorem gallery_dedup_five_attrs :
    extractPixiesetGallery
        { dataSrcAttrs := ["https://images.pixieset.com/a.jpg",
            "https://images.pixieset.com/b.jpg"],
          srcAttrs := ["https://images.pixieset.com/a.jpg",
            "https://images.pixieset.com/b.jpg",
            "https://images.pixieset.com/c.jpg"],
          ldJsonImages := [], scriptUrlMatches := [],
          html := "pixieset gallery" } =
      Except.ok
        [{ url := "https://images.pixieset.com/a.jpg",
           filename := "pixieset_image_1.jpg",
           thumbnail := some "https://images.pixieset.com/a.jpg" },
         { url := "https://images.pixieset.com/b.jpg",
           filename := "pixieset_image_2.jpg",
           thumbnail := some "https://images.pixieset.com/b.jpg" },
         { url := "https://images.pixieset.com/c.jpg",
           filename := "pixieset_image_3.jpg",
           thumbnail := some "https://images.pixieset.com/c.jpg" }] := by
  rfl

/-- One uploaded file as the handler sees it: its name and the inline
base64 data-URL encoding of its bytes (the fallback used when the blob
store write fails). -/
structure UploadFile where
  name : String
  dataUrl : String
deriving Repr, DecidableEq

/-- Outcome of the internal fetch to `/api/extract-gallery` made by `POST`:
a successful response with the image list, a non-OK response carrying
`errorData.error`, or a rejected fetch. -/
inductive ExtractCallOutcome
  | ok (images : List (String × String))
  | badStatus (errMsg : String)
  | thrown (msg : String)

/-- The fixed demo sample set of `POST` (lines 108-112 of `route.ts`). -/
def demoSampleImages : List (String × String) :=
  [("/placeholder.svg?height=400&width=600&text=Sample+Image+1+with+Watermark", "sample_1.jpg"),
   ("/placeholder.svg?height=400&width=600&text=Sample+Image+2+with+Watermark", "sample_2.jpg"),
   ("/placeholder.svg?height=400&width=600&text=Sample+Image+3+with+Watermark", "sample_3.jpg")]

/-- The synthetic results returned in demo mode: every sample succeeds, with
`processedUrl` derived by the `replace("with+Watermark", "Watermark+Removed")`
rewrite. -/
def demoResults : List ProcessingResult :=
  demoSampleImages.map fun q =>
    { originalUrl := q.1
      processedUrl := replaceLitStr "with+Watermark" "Watermark+Removed" q.1
      filename := q.2
      status := PStatus.success
      message := some "Demo processing completed"
      jobId := none }

/-- Resolution of the uploaded files (lines 138-172): each present file is
written to the blob store; on success its public URL is used, on failure the
inline data-URL is kept (to be rejected later by provider validation). -/
def resolveUploads (blob : Nat → Except String String)
    (files : List (Option UploadFile)) : List (String × String) :=
  files.enum.foldl (fun acc p =>
    match p.2 with
    | none => acc
    | some f =>
      match blob p.1 with
      | Except.ok url => acc ++ [(url, f.name)]
      | Except.error _ => acc ++ [(f.dataUrl, f.name)]) []

/-- Merging the gallery extraction into the task list (lines 174-210): on a
non-OK response or a rejected fetch the error is rethrown only when no
uploaded tasks exist; otherwise the uploads alone continue. -/
def addGalleryImages (acc : List (String × String))
    (outcome : ExtractCallOutcome) : Except String (List (String × String)) :=
  match outcome with
  | ExtractCallOutcome.ok imgs => Except.ok (acc ++ imgs)
  | ExtractCallOutcome.badStatus e =>
    if acc.length = 0 then Except.error ("Gallery extraction failed: " ++ e)
    else Except.ok acc
  | ExtractCallOutcome.thrown m =>
    if acc.length = 0 then Except.error m else Except.ok acc

/-- The fixed sample fallback substituted when no uploads and no gallery
images exist (lines 213-226). -/
def fallbackSamples : List (String × String) :=
  [("https://images.unsplash.com/photo-1503023345310-bd7c1de61c7d?w=800&h=600&fit=crop",
    "sample_landscape.jpg"),
   ("https://images.unsplash.com/photo-1516117172878-fd2c41f4a759?w=800&h=600&fit=crop",
    "sample_architecture.jpg")]

/-- Successful response body of `POST /api/process-images`.  The
`demoMode : Bool` field models the presence of the `demoMode: true` marker
(absent, i.e. `false`, in the non-demo response). -/
structure PostOk where
  results : List ProcessingResult
  sessionId : String
  demoMode : Bool
deriving Repr, DecidableEq

/-- Embedding of the `POST` handler of `route.ts`.  Environment inputs are
`FAL_KEY`, `FAL_API_KEY` and `DEMO_MODE`; request inputs are the session id,
the optional gallery URL and the (possibly null) uploaded files; `blob`,
`galleryCall` and `oracle` are the external effects.  Returns the response
(`Except.error (msg, 500)` for the outer catch) together with the number of
provider-call attempts performed. -/
def postHandler (falKey falApiKey demoFlag : Option String) (sessionId : String)
    (galleryUrl : Option String) (files : List (Option UploadFile))
    (blob : Nat → Except String String) (galleryCall : ExtractCallOutcome)
    (oracle : Nat → Nat → Except String WRResult) :
    Except (String × Nat) PostOk × Nat :=
  let demoMode := demoFlag = some "true"
  let apiKey := (firstTruthy falKey falApiKey).getD ""
  if demoMode ∨ apiKey = "" then
    (Except.ok { results := demoResults, sessionId := sessionId, demoMode := true }, 0)
  else
    let uploaded := resolveUploads blob files
    let withGallery :=
      match galleryUrl with
      | none => Except.ok uploaded
      | some g =>
        if g.trim = "" then Except.ok uploaded
        else addGalleryImages uploaded galleryCall
    match withGallery with
    | Except.error m => (Except.error (m, 500), 0)
    | Except.ok imgs =>
      let tasks := if imgs.length = 0 then fallbackSamples else imgs
      (Except.ok { results := runPipeline oracle tasks concurrencyLimit,
                   sessionId := sessionId, demoMode := false },
       (tasks.enum.map fun p =>
         (processImageWithRetry (oracle p.1) p.2.1 p.2.2).2.1).sum)

/-- C5: with demo mode active or no credential configured, `POST` with zero
uploads and no gallery URL returns exactly the fixed 3-item synthetic result
set together with the session id and the `demoMode: true` marker, every item
has status success, and zero provider-call attempts are made (the response
does not depend on any of the external effects). -/
theorem demo_mode_fixed_results (falKey falApiKey demoFlag : Option String)
    (sid : String) (blob : Nat → Except String String)
    (galleryCall : ExtractCallOutcome)
    (oracle : Nat → Nat → Except String WRResult)
    (hdemo : demoFlag = some "true" ∨ firstTruthy falKey falApiKey = none) :
    postHandler falKey falApiKey demoFlag sid none [] blob galleryCall oracle =
      (Except.ok { results := demoResults, sessionId := sid, demoMode := true }, 0) ∧
    demoResults.length = 3 ∧
    (∀ r ∈ demoResults, r.status = PStatus.success) ∧
    demoResults =
      [{ originalUrl := "/placeholder.svg?height=400&width=600&text=Sample+Image+1+with+Watermark",
         processedUrl := "/placeholder.svg?height=400&width=600&text=Sample+Image+1+Watermark+Removed",
         filename := "sample_1.jpg", status := PStatus.success,
         message := some "Demo processing completed", jobId := none },
       { originalUrl := "/placeholder.svg?height=400&width=600&text=Sample+Image+2+with+Watermark",
         processedUrl := "/placeholder.svg?height=400&width=600&text=Sample+Image+2+Watermark+Removed",
         filename := "sample_2.jpg", status := PStatus.success,
         message := some "Demo processing completed", jobId := none },
       { originalUrl := "/placeholder.svg?height=400&width=600&text=Sample+Image+3+with+Watermark",
         processedUrl := "/placeholder.svg?height=400&width=600&text=Sample+Image+3+Watermark+Removed",
         filename := "sample_3.jpg", status := PStatus.success,
         message := some "Demo processing completed", jobId := none }] := by
  refine ⟨?_, rfl, by decide, by rfl⟩
  rcases hdemo with hflag | hkey
  · simp [postHandler, hflag]
  · simp [postHandler, hkey]

/-- Witness: with no credentials configured at all, the demo response is
returned verbatim with zero provider attempts. -/
theorem demo_mode_fixed_results_witness :
    postHandler none none none "sess" none []
        (fun _ => Except.error "no blob") (ExtractCallOutcome.thrown "x")
        (fun _ _ => Except.error "no provider") =
      (Except.ok { results := demoResults, sessionId := "sess", demoMode := true }, 0) :=
  (demo_mode_fixed_results none none none "sess"
    (fun _ => Except.error "no blob") (ExtractCallOutcome.thrown "x")
    (fun _ _ => Except.error "no provider") (Or.inr rfl)).1

/-- Provider configuration (`ApiSettings` in `watermark-api.ts`). -/
structure ApiSettings where
  provider : String
  apiKey : String
  endpoint : Option String
deriving Repr, DecidableEq

/-- JSON fields of a Fal.ai response body that the adapter reads:
`detail?.[0]?.type`, the string rendering of a truthy `detail`, the `images`
URL array, and `request_id`. -/
structure FalJson where
  detail0Type : Option String
  detailStr : Option String
  images : List String
  requestId : Option String

/-- The main Fal.ai fetch response: HTTP flags, the raw body text, and the
outcome of `JSON.parse` on it (`none` = parse throws). -/
structure FalResp where
  ok : Bool
  status : Nat
  statusText : String
  bodyText : String
  parsed : Option FalJson

/-- External world of `removeWithFluxKontext`: the `HEAD` probe of the image
URL (`Except.error` = fetch rejected, the payload is `response.ok`), the
main API call, and `Date.now()` for the fallback job id. -/
structure FalWorld where
  probe : Except String Bool
  call : Except String FalResp
  now : Nat

/-- A generic provider HTTP response: `response.ok`, `statusText`, and the
outcome of `response.json()` (`Except.error` = its promise rejected). -/
structure HttpShell (J : Type) where
  ok : Bool
  statusText : String
  json : Except String J

/-- LightPDF upload-response JSON (`file_id`). -/
structure LightUploadJson where
  fileId : String

/-- LightPDF process-response JSON (`download_url`, `job_id`). -/
structure LightProcessJson where
  downloadUrl : Option String
  jobId : Option String

/-- External world of `removeLightPDF`: the upload call then the process
call. -/
structure LightWorld where
  upload : Except String (HttpShell LightUploadJson)
  process : Except String (HttpShell LightProcessJson)

/-- watermarkremover.io response JSON (`result_url`, `job_id`). -/
structure WmrJson where
  resultUrl : Option String
  jobId : Option String

/-- RapidAPI response JSON (`output_url`, `request_id`). -/
structure RapidJson where
  outputUrl : Option String
  requestId : Option String

/-- Custom-endpoint response JSON (`processed_url`, `job_id`). -/
structure CustomJson where
  processedUrl : Option String
  jobId : Option String

/-- External world of a single-fetch provider. -/
structure OneCallWorld (J : Type) where
  call : Except String (HttpShell J)

/-- Worlds of all provider variants, bundled. -/
structure ProviderWorld where
  fal : FalWorld
  light : LightWorld
  wmr : OneCallWorld WmrJson
  rapid : OneCallWorld RapidJson
  custom : OneCallWorld CustomJson

/-- The try-block body of `removeWithFluxKontext` (lines 39-150 of
`watermark-api.ts`): URL validation, reachability probe (whose inner catch
replaces any failure by `Cannot access image URL`), the main call, and the
status-code classification of non-success responses. -/
def removeWithFluxKontextTry (imageUrl : String) (w : FalWorld) :
    Except String WRResult :=
  if strStartsWith "/" imageUrl || substr "placeholder.svg" imageUrl then
    Except.error "Image URL must be publicly accessible. Local URLs are not supported by Fal.ai"
  else
    match w.probe with
    | Except.error _ => Except.error ("Cannot access image URL: " ++ imageUrl)
    | Except.ok probeOk =>
      if !probeOk then Except.error ("Cannot access image URL: " ++ imageUrl)
      else
        match w.call with
        | Except.error e => Except.error e
        | Except.ok resp =>
          if !resp.ok then
            match resp.parsed with
            | none =>
              Except.error ("Fal API error: " ++ toString resp.status ++ " - " ++
                resp.statusText ++ ". Response: " ++ resp.bodyText.take 100)
            | some j =>
              if resp.status = 422 ∧ j.detail0Type = some "file_download_error" then
                Except.error ("Cannot download image from URL: " ++ imageUrl ++
                  ". Please ensure the URL is publicly accessible.")
              else if resp.status = 401 then
                Except.error "Invalid API key. Please check your Fal.ai API key."
              else if resp.status = 403 then
                Except.error "Access forbidden. Please check your Fal.ai API key permissions."
              else
                Except.error ("Fal API error: " ++ toString resp.status ++ " - " ++
                  orElseStr j.detailStr resp.statusText)
          else
            match resp.parsed with
            | none =>
              Except.error ("Invalid JSON response from Fal.ai: " ++ resp.bodyText.take 100)
            | some j =>
              match j.images with
              | [] => Except.error "No processed images returned from Flux Kontext"
              | u :: _ =>
                Except.ok
                  { success := true
                    processedImageUrl := some u
                    error := none
                    jobId := some (orElseStr j.requestId ("flux_" ++ toString w.now)) }

/-- The catch block every provider method ends with: a thrown error becomes
a resolved `{success: false, error: message}`. -/
def handleWR (c : Except String WRResult) : WRResult :=
  match c with
  | Except.ok r => r
  | Except.error e =>
    { success := false, processedImageUrl := none, error := some e, jobId := none }

/-- `removeWithFluxKontext` with its catch. -/
def removeWithFluxKontext (imageUrl : String) (w : FalWorld) : WRResult :=
  handleWR (removeWithFluxKontextTry imageUrl w)

/-- The try-block body of `removeLightPDF`: upload, parse `file_id`, then
process; non-OK statuses throw. -/
def removeLightPDFTry (w : LightWorld) : Except String WRResult := do
  let r1 ← w.upload
  if !r1.ok then throw ("Upload failed: " ++ r1.statusText)
  let _fid ← r1.json
  let r2 ← w.process
  if !r2.ok then throw ("Processing failed: " ++ r2.statusText)
  let j2 ← r2.json
  return { success := true, processedImageUrl := j2.downloadUrl,
           error := none, jobId := j2.jobId }

/-- `removeLightPDF` with its catch. -/
def removeLightPDF (w : LightWorld) : WRResult :=
  handleWR (removeLightPDFTry w)

/-- The try-block body of `removeWatermarkRemover`. -/
def removeWatermarkRemoverTry (w : OneCallWorld WmrJson) :
    Except String WRResult := do
  let r ← w.call
  if !r.ok then throw ("API request failed: " ++ r.statusText)
  let j ← r.json
  return { success := true, processedImageUrl := j.resultUrl,
           error := none, jobId := j.jobId }

/-- `removeWatermarkRemover` with its catch. -/
def removeWatermarkRemover (w : OneCallWorld WmrJson) : WRResult :=
  handleWR (removeWatermarkRemoverTry w)

/-- The try-block body of `removeRapidAPI`. -/
def removeRapidAPITry (w : OneCallWorld RapidJson) : Except String WRResult := do
  let r ← w.call
  if !r.ok then throw ("API request failed: " ++ r.statusText)
  let j ← r.json
  return { success := true, processedImageUrl := j.outputUrl,
           error := none, jobId := j.requestId }

/-- `removeRapidAPI` with its catch. -/
def removeRapidAPI (w : OneCallWorld RapidJson) : WRResult :=
  handleWR (removeRapidAPITry w)

/-- The try-block body of `removeCustom`: a falsy endpoint throws before any
call. -/
def removeCustomTry (endpoint : Option String) (w : OneCallWorld CustomJson) :
    Except String WRResult := do
  if !truthyStr endpoint then throw "Custom endpoint not configured"
  let r ← w.call
  if !r.ok then throw ("API request failed: " ++ r.statusText)
  let j ← r.json
  return { success := true, processedImageUrl := j.processedUrl,
           error := none, jobId := j.jobId }

/-- `removeCustom` with its catch. -/
def removeCustom (endpoint : Option String) (w : OneCallWorld CustomJson) :
    WRResult :=
  handleWR (removeCustomTry endpoint w)

/-- The recognized provider strings of the dispatch switch. -/
def recognizedProviders : List String :=
  ["fal", "lightpdf", "watermarkremover", "rapidapi", "custom"]

/-- Embedding of `removeWatermark`: the string-keyed dispatch.  The result
is `Except` because the `default` branch of the switch throws (the returned
promise rejects) for an unrecognized provider; every recognized branch
resolves with the caught result of its method. -/
def removeWatermark (s : ApiSettings) (imageUrl filename : String)
    (w : ProviderWorld) : Except String WRResult :=
  if s.provider = "fal" then Except.ok (removeWithFluxKontext imageUrl w.fal)
  else if s.provider = "lightpdf" then Except.ok (removeLightPDF w.light)
  else if s.provider = "watermarkremover" then
    Except.ok (removeWatermarkRemover w.wmr)
  else if s.provider = "rapidapi" then Except.ok (removeRapidAPI w.rapid)
  else if s.provider = "custom" then Except.ok (removeCustom s.endpoint w.custom)
  else Except.error "Unsupported API provider"

/-- C10: for every recognized provider, `removeWatermark` never rejects:
every failure of a provider body - including the fal URL-validation failure,
a probe failure, and a non-success HTTP status - is caught and returned as a
resolved result with `success: false` and the error message; only an
unrecognized provider string rejects. -/
theorem removeWatermark_never_rejects (s : ApiSettings) (url fn : String)
    (w : ProviderWorld) :
    (s.provider ∈ recognizedProviders →
      ∃ r, removeWatermark s url fn w = Except.ok r) ∧
    (∀ e, removeWatermark s url fn w = Except.error e →
      s.provider ∉ recognizedProviders ∧ e = "Unsupported API provider") ∧
    (∀ e, removeWithFluxKontextTry url w.fal = Except.error e →
      removeWatermark { s with provider := "fal" } url fn w =
        Except.ok { success := false, processedImageUrl := none,
                    error := some e, jobId := none }) ∧
    (∀ e, removeLightPDFTry w.light = Except.error e →
      removeWatermark { s with provider := "lightpdf" } url fn w =
        Except.ok { success := false, processedImageUrl := none,
                    error := some e, jobId := none }) ∧
    (∀ e, removeWatermarkRemoverTry w.wmr = Except.error e →
      removeWatermark { s with provider := "watermarkremover" } url fn w =
        Except.ok { success := false, processedImageUrl := none,
                    error := some e, jobId := none }) ∧
    (∀ e, removeRapidAPITry w.rapid = Except.error e →
      removeWatermark { s with provider := "rapidapi" } url fn w =
        Except.ok { success := false, processedImageUrl := none,
                    error := some e, jobId := none }) ∧
    (∀ e, removeCustomTry s.endpoint w.custom = Except.error e →
      removeWatermark { s with provider := "custom" } url fn w =
        Except.ok { success := false, processedImageUrl := none,
                    error := some e, jobId := none }) ∧
    (strStartsWith "/" url = true →
      removeWithFluxKontextTry url w.fal =
        Except.error "Image URL must be publicly accessible. Local URLs are not supported by Fal.ai") ∧
    (∀ m, (strStartsWith "/" url || substr "placeholder.svg" url) = false →
      w.fal.probe = Except.error m →
      removeWithFluxKontextTry url w.fal =
        Except.error ("Cannot access image URL: " ++ url)) ∧
    (∀ resp j, (strStartsWith "/" url || substr "placeholder.svg" url) = false →
      w.fal.probe = Except.ok true → w.fal.call = Except.ok resp →
      resp.ok = false → resp.parsed = some j → resp.status = 401 →
      removeWithFluxKontextTry url w.fal =
        Except.error "Invalid API key. Please check your Fal.ai API key.") := by
  refine ⟨?_, ?_, ?_, ?_, ?_, ?_, ?_, ?_, ?_, ?_⟩
  · intro hmem
    simp only [recognizedProviders, List.mem_cons, List.not_mem_nil,
      or_false] at hmem
    rcases hmem with h | h | h | h | h
    · exact ⟨removeWithFluxKontext url w.fal, by simp [removeWatermark, h]⟩
    · exact ⟨removeLightPDF w.light, by simp [removeWatermark, h]⟩
    · exact ⟨removeWatermarkRemover w.wmr, by simp [removeWatermark, h]⟩
    · exact ⟨removeRapidAPI w.rapid, by simp [removeWatermark, h]⟩
    · exact ⟨removeCustom s.endpoint w.custom, by simp [removeWatermark, h]⟩
  · intro e he
    by_cases h1 : s.provider = "fal"
    · simp [removeWatermark, h1] at he
    · by_cases h2 : s.provider = "lightpdf"
      · simp [removeWatermark, h1, h2] at he
      · by_cases h3 : s.provider = "watermarkremover"
        · simp [removeWatermark, h1, h2, h3] at he
        · by_cases h4 : s.provider = "rapidapi"
          · simp [removeWatermark, h1, h2, h3, h4] at he
          · by_cases h5 : s.provider = "custom"
            · simp [removeWatermark, h1, h2, h3, h4, h5] at he
            · refine ⟨?_, ?_⟩
              · simp [recognizedProviders, h1, h2, h3, h4, h5]
              · simp [removeWatermark, h1, h2, h3, h4, h5] at he
                exact he.symm
  · intro e he
    simp [removeWatermark, removeWithFluxKontext, handleWR, he]
  · intro e he
    simp [removeWatermark, removeLightPDF, handleWR, he]
  · intro e he
    simp [removeWatermark, removeWatermarkRemover, handleWR, he]
  · intro e he
    simp [removeWatermark, removeRapidAPI, handleWR, he]
  · intro e he
    simp [removeWatermark, removeCustom, handleWR, he]
  · intro hstart
    simp [removeWithFluxKontextTry, hstart]
  · intro m hval hprobe
    rw [removeWithFluxKontextTry, if_neg (by simp_all), hprobe]
  · intro resp j hval hprobe hcall hok hparsed hstatus
    rw [removeWithFluxKontextTry, if_neg (by simp_all), hprobe]
    simp [hcall, hok, hparsed, hstatus]

/-- Witness: with a world in which every provider call fails, each clause of
the no-reject contract evaluates as stated at concrete inputs. -/
theorem removeWatermark_never_rejects_witness :
    (∃ r, removeWatermark { provider := "fal", apiKey := "k", endpoint := none }
        "/local.jpg" "f.jpg"
        { fal := { probe := Except.error "down", call := Except.error "down", now := 7 },
          light := { upload := Except.error "down", process := Except.error "down" },
          wmr := { call := Except.error "down" },
          rapid := { call := Except.error "down" },
          custom := { call := Except.error "down" } } = Except.ok r) ∧
    removeWatermark { provider := "fal", apiKey := "k", endpoint := none }
        "/local.jpg" "f.jpg"
        { fal := { probe := Except.error "down", call := Except.error "down", now := 7 },
          light := { upload := Except.error "down", process := Except.error "down" },
          wmr := { call := Except.error "down" },
          rapid := { call := Except.error "down" },
          custom := { call := Except.error "down" } } =
      Except.ok
        { success := false
          processedImageUrl := none
          error := some "Image URL must be publicly accessible. Local URLs are not supported by Fal.ai"
          jobId := none } ∧
    removeWatermark { provider := "nope", apiKey := "k", endpoint := none }
        "/local.jpg" "f.jpg"
        { fal := { probe := Except.error "down", call := Except.error "down", now := 7 },
          light := { upload := Except.error "down", process := Except.error "down" },
          wmr := { call := Except.error "down" },
          rapid := { call := Except.error "down" },
          custom := { call := Except.error "down" } } =
      Except.error "Unsupported API provider" := by
  have h := removeWatermark_never_rejects
    { provider := "fal", apiKey := "k", endpoint := none } "/local.jpg" "f.jpg"
    { fal := { probe := Except.error "down", call := Except.error "down", now := 7 },
      light := { upload := Except.error "down", process := Except.error "down" },
      wmr := { call := Except.error "down" },
      rapid := { call := Except.error "down" },
      custom := { call := Except.error "down" } }
  refine ⟨h.1 (by decide), ?_, by rfl⟩
  have hfail := h.2.2.2.2.2.2.2.1 (by decide)
  exact h.2.2.1 _ hfail
